import Mathlib

/-!
Verification of the Checklist Execution Engine of src/app/analytics.tsx
(component ChecklistsScreen).

The embedding translates the component state hooks and handlers:
  selectedChecklist, completedSteps, activeTimer, timerValue, timerRunning
and the operations openChecklist, closeChecklist, toggleStep, startTimer,
stopTimer, together with the one-second interval effect (modelled as tick).
The Alert.alert call fired on natural timer completion is recorded in an
alerts log carried in the state, so that emission of completion
notifications is observable in the model.
-/

/-- Embeds interface ChecklistStep of src/app/analytics.tsx:
order, title, description, optional timer_seconds, is_safety, optional
safety_note. -/
structure ChecklistStep where
  order : Nat
  title : String
  description : String
  timer_seconds : Option Nat
  is_safety : Bool
  safety_note : Option String

/-- Embeds interface Checklist of src/app/analytics.tsx. -/
structure Checklist where
  id : String
  name : String
  device_type : String
  repair_type : String
  steps : List ChecklistStep
  estimated_time_minutes : Nat

/-- Embeds the runner-relevant useState hooks of ChecklistsScreen:
selectedChecklist, completedSteps, activeTimer, timerValue, timerRunning.
The alerts field logs every Alert.alert call as a pair of title and
message, in emission order. -/
structure RunnerState where
  selectedChecklist : Option Checklist
  completedSteps : Finset Nat
  activeTimer : Option Nat
  timerValue : Nat
  timerRunning : Bool
  alerts : List (String × String)

/-- The exact payload of the Alert.alert call in the interval effect. -/
def timerCompleteAlert : String × String :=
  ("Timer Complete", "Step timer has finished!")

/-- The initial values of the useState hooks: no selection, empty set,
no active timer, value 0, not running, nothing alerted yet. -/
def initState : RunnerState :=
  { selectedChecklist := none
    completedSteps := ∅
    activeTimer := none
    timerValue := 0
    timerRunning := false
    alerts := [] }

/-- openChecklist: selects the checklist and resets completedSteps,
activeTimer, timerValue and timerRunning. -/
def openChecklist (s : RunnerState) (c : Checklist) : RunnerState :=
  { s with
    selectedChecklist := some c
    completedSteps := ∅
    activeTimer := none
    timerValue := 0
    timerRunning := false }

/-- closeChecklist: clears the selection and resets the same fields. -/
def closeChecklist (s : RunnerState) : RunnerState :=
  { s with
    selectedChecklist := none
    completedSteps := ∅
    activeTimer := none
    timerValue := 0
    timerRunning := false }

/-- toggleStep: copies completedSteps, then deletes stepOrder when present
and adds it when absent. No validation against the definition occurs. -/
def toggleStep (s : RunnerState) (stepOrder : Nat) : RunnerState :=
  if stepOrder ∈ s.completedSteps then
    { s with completedSteps := s.completedSteps.erase stepOrder }
  else
    { s with completedSteps := insert stepOrder s.completedSteps }

/-- startTimer: sets activeTimer, timerValue and timerRunning with no
precondition checks. -/
def startTimer (s : RunnerState) (stepOrder seconds : Nat) : RunnerState :=
  { s with
    activeTimer := some stepOrder
    timerValue := seconds
    timerRunning := true }

/-- stopTimer: sets timerRunning to false and nothing else. -/
def stopTimer (s : RunnerState) : RunnerState :=
  { s with timerRunning := false }

/-- One firing of the interval effect. The interval only exists while
timerRunning and timerValue > 0 hold; the callback sets the value to
prev - 1, except that with prev <= 1 it stops the timer, fires the alert
and sets the value to 0. -/
def tick (s : RunnerState) : RunnerState :=
  if s.timerRunning && decide (0 < s.timerValue) then
    if s.timerValue ≤ 1 then
      { s with
        timerValue := 0
        timerRunning := false
        alerts := s.alerts ++ [timerCompleteAlert] }
    else
      { s with timerValue := s.timerValue - 1 }
  else
    s

/-- n consecutive one-second ticks. -/
def ticks : Nat → RunnerState → RunnerState
  | 0, s => s
  | n + 1, s => ticks n (tick s)

/-- The completion-banner condition of ChecklistsScreen: a checklist is
selected and completedSteps.size equals the number of steps. -/
def allStepsComplete (s : RunnerState) : Bool :=
  match s.selectedChecklist with
  | some c => s.completedSteps.card == c.steps.length
  | none => false

/-- The set of step orders of a checklist definition. -/
def stepOrders (c : Checklist) : Finset Nat :=
  (c.steps.map ChecklistStep.order).toFinset

/-- A two-step checklist used as a concrete definition in
counterexamples and witnesses. -/
def demoStep (o : Nat) (t : Option Nat) : ChecklistStep :=
  { order := o
    title := ""
    description := ""
    timer_seconds := t
    is_safety := false
    safety_note := none }

/-- Concrete checklist with step orders 1 and 2. -/
def demoChecklist : Checklist :=
  { id := "demo"
    name := ""
    device_type := ""
    repair_type := ""
    steps := [demoStep 1 none, demoStep 2 (some 30)]
    estimated_time_minutes := 10 }

/-- One user or clock event hitting the runner. -/
inductive Op where
  | toggle (o : Nat)
  | start (o secs : Nat)
  | stop
  | clock

/-- Dispatch of one event to the corresponding handler. -/
def applyOp (s : RunnerState) : Op → RunnerState
  | Op.toggle o => toggleStep s o
  | Op.start o secs => startTimer s o secs
  | Op.stop => stopTimer s
  | Op.clock => tick s

/-- A whole event sequence, applied left to right. -/
def applyOps (s : RunnerState) : List Op → RunnerState
  | [] => s
  | op :: rest => applyOps (applyOp s op) rest

/-- tick never changes completedSteps. -/
theorem tick_completedSteps (s : RunnerState) :
    (tick s).completedSteps = s.completedSteps := by
  unfold tick
  split
  · split <;> rfl
  · rfl

/-- A tick received while the timer is not running is a no-op. -/
theorem tick_not_running (s : RunnerState) (h : s.timerRunning = false) :
    tick s = s := by
  simp [tick, h]

/-- Iterating a fixed point of tick stays put. -/
theorem ticks_of_tick_eq (s : RunnerState) (h : tick s = s) (n : Nat) :
    ticks n s = s := by
  induction n with
  | zero => rfl
  | succ k ih =>
    simp only [ticks]
    rw [h]
    exact ih

/-- Claim C1: while the timer is running, a tick with remainingSeconds
greater than 1 decrements it by 1; the tick taken at remainingSeconds 1
sets it to 0, stops the timer, and appends exactly one completion alert,
leaving completedSteps untouched; after startTimer with 5 seconds and 4
ticks the value is 1 with the timer still running, and the 5th tick
yields value 0, timer stopped, one alert, with activeTimer still naming
the finished step. -/
theorem timer_tick_semantics (s : RunnerState) (step n : Nat) :
    tick { s with timerRunning := true, timerValue := n + 2 } =
      { s with timerRunning := true, timerValue := n + 1 } ∧
    tick { s with timerRunning := true, timerValue := 1 } =
      { s with timerRunning := false, timerValue := 0,
               alerts := s.alerts ++ [timerCompleteAlert] } ∧
    ticks 4 (startTimer s step 5) =
      { s with activeTimer := some step, timerValue := 1, timerRunning := true } ∧
    tick (ticks 4 (startTimer s step 5)) =
      { s with activeTimer := some step, timerValue := 0, timerRunning := false,
               alerts := s.alerts ++ [timerCompleteAlert] } ∧
    (tick (ticks 4 (startTimer s step 5))).completedSteps = s.completedSteps :=
  ⟨rfl, rfl, rfl, rfl, rfl⟩

/-- Claim C4: starting a timer on step a and then on step b leaves
activeTimer at b with the seconds of b, and the resulting state carries
no trace of the timer of a: it equals the state where only the timer of
b was ever started. -/
theorem startTimer_replaces_active (s : RunnerState) (a b sa sb : Nat)
    (hne : b ≠ a) :
    (startTimer (startTimer s a sa) b sb).activeTimer = some b ∧
    (startTimer (startTimer s a sa) b sb).timerValue = sb ∧
    (startTimer (startTimer s a sa) b sb).timerRunning = true ∧
    startTimer (startTimer s a sa) b sb = startTimer s b sb :=
  ⟨rfl, rfl, rfl, rfl⟩

/-- Witness for C4 at steps 1 and 2 with 30 and 45 seconds. -/
theorem startTimer_replaces_active_witness :
    (startTimer (startTimer initState 1 30) 2 45).activeTimer = some 2 ∧
    (startTimer (startTimer initState 1 30) 2 45).timerValue = 45 ∧
    (startTimer (startTimer initState 1 30) 2 45).timerRunning = true ∧
    startTimer (startTimer initState 1 30) 2 45 = startTimer initState 2 45 :=
  startTimer_replaces_active initState 1 2 30 45 (by decide)

/-- Claim C6: stopTimer sets timerRunning to false and preserves every
other component of the state, alerts included. -/
theorem stopTimer_frame (s : RunnerState) :
    (stopTimer s).timerRunning = false ∧
    (stopTimer s).activeTimer = s.activeTimer ∧
    (stopTimer s).timerValue = s.timerValue ∧
    (stopTimer s).completedSteps = s.completedSteps ∧
    (stopTimer s).selectedChecklist = s.selectedChecklist ∧
    (stopTimer s).alerts = s.alerts :=
  ⟨rfl, rfl, rfl, rfl, rfl, rfl⟩

/-- Claim C8: opening a checklist from any prior state yields a fresh
runner: empty completedSteps, no active timer, value 0, not running,
with the opened checklist selected. -/
theorem openChecklist_fresh_state (s : RunnerState) (c : Checklist) :
    (openChecklist s c).selectedChecklist = some c ∧
    (openChecklist s c).completedSteps = ∅ ∧
    (openChecklist s c).activeTimer = none ∧
    (openChecklist s c).timerValue = 0 ∧
    (openChecklist s c).timerRunning = false :=
  ⟨rfl, rfl, rfl, rfl, rfl⟩

/-- Claim C10: startTimer enforces no preconditions: for any order and
any seconds value, 0 included, it sets activeTimer, timerValue and
timerRunning; with seconds 0 the interval guard timerValue > 0 never
fires, so any number of ticks leaves the state, alerts included,
unchanged. -/
theorem startTimer_unguarded_zero_seconds (s : RunnerState) (o secs n : Nat) :
    (startTimer s o secs).activeTimer = some o ∧
    (startTimer s o secs).timerValue = secs ∧
    (startTimer s o secs).timerRunning = true ∧
    ticks n (startTimer s o 0) = startTimer s o 0 :=
  ⟨rfl, rfl, rfl, ticks_of_tick_eq (startTimer s o 0) rfl n⟩

/-- Claim C2 counterexample: against the two-step demo checklist, the
state reached by toggling orders 1 and 3 makes the banner condition true
by cardinality alone, while completedSteps is not the set of defined
step orders. -/
theorem allStepsComplete_cardinality_counterexample :
    allStepsComplete
        (toggleStep (toggleStep (openChecklist initState demoChecklist) 1) 3) = true ∧
    (toggleStep (toggleStep (openChecklist initState demoChecklist) 1) 3).completedSteps ≠
      stepOrders demoChecklist := by
  constructor
  · decide
  · decide

/-- Claim C2 as amended: the banner condition compares only cardinality;
under the additional hypotheses that the defined step orders are
duplicate-free and that completedSteps is a subset of them, cardinality
agreement is equivalent to set equality. -/
theorem allStepsComplete_iff_of_subset (s : RunnerState) (c : Checklist)
    (hsel : s.selectedChecklist = some c)
    (hnodup : (c.steps.map ChecklistStep.order).Nodup)
    (hsub : s.completedSteps ⊆ stepOrders c) :
    allStepsComplete s = true ↔ s.completedSteps = stepOrders c := by
  have hcard : (stepOrders c).card = c.steps.length := by
    simp [stepOrders, List.toFinset_card_of_nodup hnodup]
  unfold allStepsComplete
  rw [hsel]
  simp only [beq_iff_eq]
  constructor
  · intro h
    apply Finset.eq_of_subset_of_card_le hsub
    omega
  · intro h
    rw [h, hcard]

/-- Witness for the amended C2: completing orders 1 and 2 of the demo
checklist raises the banner. -/
theorem allStepsComplete_iff_witness :
    allStepsComplete
      (toggleStep (toggleStep (openChecklist initState demoChecklist) 1) 2) = true :=
  (allStepsComplete_iff_of_subset
      (toggleStep (toggleStep (openChecklist initState demoChecklist) 1) 2)
      demoChecklist rfl (by decide) (by decide)).mpr (by decide)

/-- Claim C3 counterexample: order 3 does not exist in the demo
checklist, yet toggleStep with it changes completedSteps and startTimer
with it changes activeTimer: invalid orders are not no-ops. -/
theorem toggleStep_invalid_order_mutates :
    3 ∉ stepOrders demoChecklist ∧
    (toggleStep (openChecklist initState demoChecklist) 3).completedSteps ≠
      (openChecklist initState demoChecklist).completedSteps ∧
    (startTimer (openChecklist initState demoChecklist) 3 10).activeTimer ≠
      (openChecklist initState demoChecklist).activeTimer := by
  refine ⟨by decide, by decide, by decide⟩

/-- toggleStep with an order drawn from the definition preserves the
subset invariant. -/
theorem toggleStep_subset (c : Checklist) (s : RunnerState) (o : Nat)
    (hs : s.completedSteps ⊆ stepOrders c) (ho : o ∈ stepOrders c) :
    (toggleStep s o).completedSteps ⊆ stepOrders c := by
  by_cases h : o ∈ s.completedSteps
  · simp only [toggleStep, if_pos h]
    exact Finset.Subset.trans (Finset.erase_subset o s.completedSteps) hs
  · simp only [toggleStep, if_neg h]
    exact Finset.insert_subset_iff.mpr ⟨ho, hs⟩

/-- Every single event whose toggle order, if any, is drawn from the
definition preserves the subset invariant. -/
theorem applyOp_subset (c : Checklist) (s : RunnerState) (op : Op)
    (hs : s.completedSteps ⊆ stepOrders c)
    (hop : ∀ k, op = Op.toggle k → k ∈ stepOrders c) :
    (applyOp s op).completedSteps ⊆ stepOrders c := by
  cases op with
  | toggle o => exact toggleStep_subset c s o hs (hop o rfl)
  | start o secs => exact hs
  | stop => exact hs
  | clock => rw [applyOp, tick_completedSteps]; exact hs

/-- Event sequences with valid toggle orders preserve the subset
invariant. -/
theorem applyOps_subset (c : Checklist) (ops : List Op) :
    ∀ s : RunnerState, s.completedSteps ⊆ stepOrders c →
      (∀ op ∈ ops, ∀ k, op = Op.toggle k → k ∈ stepOrders c) →
      (applyOps s ops).completedSteps ⊆ stepOrders c := by
  induction ops with
  | nil => intro s hs _; exact hs
  | cons op rest ih =>
    intro s hs hv
    simp only [applyOps]
    exact ih (applyOp s op)
      (applyOp_subset c s op hs (hv op (List.mem_cons_self op rest)))
      (fun o ho => hv o (List.mem_cons_of_mem op ho))

/-- Claim C3 as amended: toggleStep and startTimer perform no validation
of the step order, but for every event sequence in which each toggled
order exists in the opened definition, completedSteps stays a subset of
the defined step orders. -/
theorem completedSteps_subset_of_valid_ops (s : RunnerState) (c : Checklist)
    (ops : List Op)
    (hvalid : ∀ op ∈ ops, ∀ k, op = Op.toggle k → k ∈ stepOrders c) :
    (applyOps (openChecklist s c) ops).completedSteps ⊆ stepOrders c :=
  applyOps_subset c ops (openChecklist s c)
    (by simp [openChecklist]) hvalid

/-- Witness for the amended C3 on the demo checklist with a toggle of
order 1 followed by a clock tick. -/
theorem completedSteps_subset_witness :
    (applyOps (openChecklist initState demoChecklist)
        [Op.toggle 1, Op.clock]).completedSteps ⊆ stepOrders demoChecklist :=
  completedSteps_subset_of_valid_ops initState demoChecklist
    [Op.toggle 1, Op.clock]
    (by
      intro op hop k hk
      subst hk
      simp at hop
      subst hop
      decide)

/-- Claim C5: for a step order valid in the selected definition,
toggleStep flips its membership in completedSteps, and toggling twice
restores completedSteps exactly. -/
theorem toggleStep_flip_involution (s : RunnerState) (c : Checklist) (o : Nat)
    (hsel : s.selectedChecklist = some c) (ho : o ∈ stepOrders c) :
    (o ∈ (toggleStep s o).completedSteps ↔ o ∉ s.completedSteps) ∧
    (toggleStep (toggleStep s o) o).completedSteps = s.completedSteps := by
  constructor
  · by_cases h : o ∈ s.completedSteps
    · simp [toggleStep, h]
    · simp [toggleStep, h]
  · by_cases h : o ∈ s.completedSteps
    · simp [toggleStep, h, Finset.not_mem_erase, Finset.insert_erase h]
    · simp [toggleStep, h, Finset.erase_insert h]

/-- Witness for C5 at order 1 of the demo checklist. -/
theorem toggleStep_flip_involution_witness :
    (1 ∈ (toggleStep (openChecklist initState demoChecklist) 1).completedSteps ↔
      1 ∉ (openChecklist initState demoChecklist).completedSteps) ∧
    (toggleStep (toggleStep (openChecklist initState demoChecklist) 1) 1).completedSteps =
      (openChecklist initState demoChecklist).completedSteps :=
  toggleStep_flip_involution (openChecklist initState demoChecklist)
    demoChecklist 1 rfl (by decide)

/-- Claim C7: any number of ticks after stopTimer leaves the state
unchanged, and from any state with timerRunning false every tick
sequence is a no-op, alerts included. -/
theorem ticks_noop_while_stopped (s : RunnerState) (n : Nat) :
    ticks n (stopTimer s) = stopTimer s ∧
    (s.timerRunning = false → ticks n s = s) := by
  constructor
  · exact ticks_of_tick_eq (stopTimer s) (tick_not_running (stopTimer s) rfl) n
  · intro h
    exact ticks_of_tick_eq s (tick_not_running s h) n

/-- Witness for C7: three ticks after pausing a running 5-second timer,
and three ticks on the initial non-running state. -/
theorem ticks_noop_while_stopped_witness :
    ticks 3 (stopTimer (startTimer initState 2 5)) =
      stopTimer (startTimer initState 2 5) ∧
    ticks 3 initState = initState :=
  ⟨(ticks_noop_while_stopped (startTimer initState 2 5) 3).1,
   (ticks_noop_while_stopped initState 3).2 rfl⟩

/-- Claim C9: from any state with an active timer on a step, a positive
remaining value and the timer running, stopTimer followed by startTimer
with the same step and remaining value restores the state exactly. -/
theorem pause_resume_roundtrip (s : RunnerState) (stepOrder r : Nat)
    (hA : s.activeTimer = some stepOrder) (hV : s.timerValue = r)
    (hR : s.timerRunning = true) (hr : 0 < r) :
    startTimer (stopTimer s) stepOrder r = s := by
  cases s with
  | mk sel comp act val run al => simp_all [startTimer, stopTimer]

/-- Witness for C9 on a 7-second timer of step 4. -/
theorem pause_resume_roundtrip_witness :
    startTimer (stopTimer (startTimer initState 4 7)) 4 7 =
      startTimer initState 4 7 :=
  pause_resume_roundtrip (startTimer initState 4 7) 4 7 rfl rfl rfl (by decide)
